import Mathlib

/-!
# Verification of the sdc-vmapi VM mutation engine

Shallow embedding of the sdc-vmapi sources:

* `src/unnamed/part_000` — the `/vms` HTTP handlers (`createVm`, `updateVm`,
  `streamResponse`, `deleteVm`, the action dispatch table and route mount).
* `src/lib/workflows/provision.js` — the provision workflow: password
  generation, CNAPI payload preparation, the provision task, the error
  post-back, and the task chains (`chain` / `onerror` / `oncancel`).
* `src/lib/workflows/add-nics.js` — the add-nics workflow and (concatenated
  in the same source file) the migrate-sync workflow.
* `src/lib/errors.js` — the error constructors and (concatenated in the same
  source file) the migrate-switch and migrate-begin workflows.

JavaScript objects with optional keys are modelled with `Option` fields;
a JS key that is absent (or `undefined`, which JSON-serialization drops)
is `none`.  Bodies of tasks that live in files not present under `src/`
(`job-common.js`, `fabric-common.js`, `nfs-volumes.js`,
`vm-migration/*.js`) are identified by the identifier the source chains
reference; where a claim needs their behaviour, a definition explicitly
marked `Modelled from the spec:` supplies it.
-/

namespace SdcVmapi

/-! ## part_000: the `/vms` HTTP handlers -/

/-- HTTP response produced by the handlers in `src/unnamed/part_000`.
`vm_uuid`/`job_uuid` model the `{ vm_uuid: ..., job_uuid: ... }` body;
`streamed` models the `sync=true` path of `streamResponse` that pipes the
job through `wfapi.pipeJob` instead of sending that object. -/
structure HttpResponse where
  status : Nat
  vm_uuid : Option String := none
  job_uuid : Option String := none
  streamed : Bool := false
deriving DecidableEq, Repr

/-- Source `VALID_VM_ACTIONS` (part_000 lines 74–79). -/
def VALID_VM_ACTIONS : List String := ["start", "stop", "reboot", "update"]

/-- Source `validAction` (part_000 lines 82–84):
`VALID_VM_ACTIONS.indexOf(action) != -1`. -/
def validAction (action : String) : Bool :=
  VALID_VM_ACTIONS.contains action

/-- Outcome of the `updateVm` handler before `streamResponse` runs:
either a restify error (both `MissingParameterError` and
`InvalidArgumentError` carry HTTP status 409) or dispatch to one of the
job-creating handlers. -/
inductive UpdateVmOutcome where
  | missingParameterErr (status : Nat)
  | invalidArgumentErr (status : Nat)
  | dispatched (handler : String)
deriving DecidableEq, Repr

/-- Source `updateVm` (part_000 lines 141–173): reject a missing action with
`MissingParameterError`, reject an action outside `VALID_VM_ACTIONS` with
`InvalidArgumentError`, otherwise dispatch through the `switch` to
`startVm` / `stopVm` / `rebootVm` / `changeVm` (the `switch` default repeats
the `InvalidArgumentError`). -/
def updateVm (action : Option String) : UpdateVmOutcome :=
  match action with
  | none => .missingParameterErr 409
  | some a =>
    if !(validAction a) then .invalidArgumentErr 409
    else if a = "start" then .dispatched "startVm"
    else if a = "stop" then .dispatched "stopVm"
    else if a = "reboot" then .dispatched "rebootVm"
    else if a = "update" then .dispatched "changeVm"
    else .invalidArgumentErr 409

/-- Source `streamResponse` (part_000 lines 182–200): with `sync=true` the
response is a 200 streamed job; otherwise a 200 with
`{ vm_uuid: req.vm.uuid, job_uuid: req.juuid }`. -/
def streamResponse (syncParam : Option String) (vmUuid juuid : String) :
    HttpResponse :=
  if syncParam = some "true" then
    { status := 200, streamed := true }
  else
    { status := 200, vm_uuid := some vmUuid, job_uuid := some juuid }

/-- Source `createVm` (part_000 lines 313–337): after `common.validateVm`
succeeds and `wfapi.createProvisionJob` returns `(vmuuid, juuid)`, the
handler sends `201` with `{ vm_uuid: vm.uuid, job_uuid: juuid }`.  The
validation outcome and the job-creation outcome are passed in as arguments
since they are performed by external collaborators. -/
def createVm (validation : Except String Unit)
    (provisionJob : Except String (String × String)) :
    Except String HttpResponse :=
  match validation with
  | .error e => .error e
  | .ok _ =>
    match provisionJob with
    | .error e => .error e
    | .ok (vmuuid, juuid) =>
      .ok { status := 201, vm_uuid := some vmuuid, job_uuid := some juuid }

/-- Source `mount` (part_000 lines 344–359): the route table, as
(method, path, handler chain after `before`). -/
def mountRoutes : List (String × String × List String) :=
  [ ("get", "/vms", ["listVms"]),
    ("post", "/vms", ["createVm"]),
    ("get", "/vms/:uuid", ["getVm"]),
    ("del", "/vms/:uuid", ["deleteVm", "streamResponse", "markAsDestroyed"]),
    ("post", "/vms/:uuid", ["updateVm", "streamResponse"]) ]


/-! ## errors.js: the error constructors -/

/-- One element of an `errors` array: `{field, code, message}`. -/
structure ErrElem where
  field : String
  code : String
  message : String
deriving DecidableEq, Repr

/-- Body of a restify error produced by `lib/errors.js`.  `errors` is only
present on the constructors that set it; `lastInitError` is only ever set
by `MorayBucketsNotSetupError` (whose body literal carries the key). -/
structure ErrBody where
  code : String
  message : String
  errors : Option (List ErrElem) := none
  lastInitError : Option String := none
deriving DecidableEq, Repr

/-- A restify error: HTTP status code plus response body. -/
structure RestErr where
  statusCode : Nat
  body : ErrBody
deriving DecidableEq, Repr

/-- Follows the spec's words (not the source): the claimed body shape is
`{code, message}` or `{code, message, errors:[{field, code, message}]}` —
i.e. no other key such as `lastInitError` is present. -/
def specErrorBodyShape (b : ErrBody) : Bool :=
  b.lastInitError.isNone

/-- Source `UnallocatedVMError` (errors.js lines 25–42). -/
def UnallocatedVMError (message : String) : RestErr :=
  { statusCode := 409, body := { code := "UnallocatedVM", message := message } }

/-- Source `VmNotRunningError` (errors.js lines 50–65). -/
def VmNotRunningError : RestErr :=
  { statusCode := 409,
    body := { code := "VmNotRunning", message := "VM not running" } }

/-- Source `VmNotStoppedError` (errors.js lines 73–88). -/
def VmNotStoppedError : RestErr :=
  { statusCode := 409,
    body := { code := "VmNotStopped", message := "VM not stopped" } }

/-- Source `VmWithoutFlexibleDiskSizeError` (errors.js lines 96–112). -/
def VmWithoutFlexibleDiskSizeError : RestErr :=
  { statusCode := 409,
    body := { code := "VmWithoutFlexibleDiskSize",
              message := "VM does not have flexible disk sizing enabled" } }

/-- Source `InsufficientDiskSpaceError` (errors.js lines 120–135). -/
def InsufficientDiskSpaceError : RestErr :=
  { statusCode := 409,
    body := { code := "InsufficientDiskSpace",
              message := "VM does not have sufficient free disk" } }

/-- Source `BrandNotSupportedError` (errors.js lines 143–160). -/
def BrandNotSupportedError (message : String) : RestErr :=
  { statusCode := 409,
    body := { code := "BrandNotSupported", message := message } }

/-- Source `ValidationFailedError` (errors.js lines 167–186): the only
409 constructor that carries an `errors` array. -/
def ValidationFailedError (message : String) (errors : List ErrElem) :
    RestErr :=
  { statusCode := 409,
    body := { code := "ValidationFailed", message := message,
              errors := some errors } }

/-- Source `MorayBucketsNotSetupError` (errors.js lines 315–337): a 503
whose body carries `lastInitError` (the key is always written; when the
constructor argument is absent it is `undefined` and drops from the JSON,
modelled by `none`). -/
def MorayBucketsNotSetupError (lastInitError : Option String) : RestErr :=
  let message :=
    match lastInitError with
    | some e => "Moray buckets are not setup, last buckets setup error: " ++ e
    | none => "Moray buckets are not setup"
  { statusCode := 503,
    body := { code := "MorayBucketsNotSetup", message := message,
              lastInitError := lastInitError } }

/-- Source `DataVersionError` (errors.js lines 350–375): a 503 with a
`{code, message}` body. -/
def DataVersionError (modelName : String) (requiredVer : Nat)
    (actualVer : Option Nat) (featureDesc : String) : RestErr :=
  let actualStr := match actualVer with
    | some v => toString v
    | none => "undefined"
  { statusCode := 503,
    body := { code := "DataVersion",
              message := "Data for model " ++ modelName ++
                " not at required version " ++ toString requiredVer ++
                " to support " ++ featureDesc ++
                ". Current data version is: " ++ actualStr } }

/-- Source `VolumesNotReachableError` (errors.js lines 402–423): a 409 with
an `errors` array (not part of the claimed taxonomy list, embedded for
completeness of the module). -/
def VolumesNotReachableError (errors : List ErrElem) : RestErr :=
  { statusCode := 409,
    body := { code := "VolumesNotReachable",
              message := "Volumes not reachable from VM",
              errors := some errors } }

/-! ## provision.js: data model -/

/-- Image record attached to a provision job (`job.params.image`).  Users are
modelled by their names (the only field `generatePasswords` reads).
`tags_kernel_version` models `image.tags.kernel_version`; `type`,
`generate_passwords` and `users` are the fields the provision workflow
reads; the driver fields are read by the bhyve/kvm branch of
`preparePayload`.  A JS value for `generate_passwords` other than a boolean
behaves like `none` (only the strict `=== false` comparison matters). -/
structure Image where
  type : Option String := none
  tags_kernel_version : Option String := none
  generate_passwords : Option Bool := none
  users : Option (List String) := none
  disk_driver : Option String := none
  nic_driver : Option String := none
  cpu_type : Option String := none
  flexible_disk_size : Option Nat := none
deriving DecidableEq, Repr

/-- The `internal_metadata` object of a provision job: the
`set_resolvers` flag read by `preparePayload` plus the string-valued
entries read and written by `generatePasswords` (an association list with
JS-object key semantics: lookup finds the single binding of a key). -/
structure InternalMetadata where
  set_resolvers : Option Bool := none
  entries : List (String × String) := []
deriving DecidableEq, Repr

/-- A NIC as `preparePayload` reads it: optional `resolvers` array and
optional `routes` object (association list, keys unique as in a JS
object). -/
structure Nic where
  resolvers : Option (List String) := none
  routes : Option (List (String × String)) := none
deriving DecidableEq, Repr

/-- A disk of a bhyve/kvm provision; `ensureImage` reads
`disks[0].image_uuid`. -/
structure Disk where
  image_uuid : Option String := none
deriving DecidableEq, Repr

/-- The provision job parameters the provision workflow reads.  The source's
`keys` copy-loop (provision.js lines 154–173) copies ~40 scalar keys
verbatim when present; the ones a claim depends on (`brand`, `quota`,
`resolvers`, `internal_metadata`, `nics`, `kernel_version`) are modelled,
the remaining copied scalars behave exactly like `quota` and are omitted.
`disks`, `filesystems` and `image_uuid` are *not* in the copy list and only
enter the payload through the brand branch. -/
structure ProvisionParams where
  vm_uuid : String := ""
  brand : String := ""
  image : Image := {}
  image_uuid : Option String := none
  quota : Option Nat := none
  kernel_version : Option String := none
  resolvers : Option (List String) := none
  internal_metadata : Option InternalMetadata := none
  nics : List Nic := []
  disks : Option (List Disk) := none
  filesystems : Option (List String) := none
  disk_driver : Option String := none
  nic_driver : Option String := none
  cpu_type : Option String := none
  flexible_disk_size : Option Nat := none
  imgapiPeers : Option (List String) := none
deriving DecidableEq, Repr

/-- The payload `preparePayload` builds for `cnapi.createVm`
(`job.params.payload`). -/
structure CnapiPayload where
  uuid : String := ""
  image : Image := {}
  brand : Option String := none
  quota : Option Nat := none
  kernel_version : Option String := none
  internal_metadata : Option InternalMetadata := none
  nics : List Nic := []
  resolvers : Option (List String) := none
  routes : Option (List (String × String)) := none
  archive_on_delete : Bool := false
  disks : Option (List Disk) := none
  image_uuid : Option String := none
  filesystems : Option (List String) := none
  disk_driver : Option String := none
  nic_driver : Option String := none
  cpu_type : Option String := none
  flexible_disk_size : Option Nat := none
  imgapiPeers : Option (List String) := none
deriving DecidableEq, Repr


/-! ## provision.js: generatePasswords -/

/-- Metadata key generated for an image user: `user.name + '_pw'`
(provision.js line 105). -/
def pwKey (userName : String) : String := userName ++ "_pw"

/-- The `async.mapSeries` loop of `generatePasswords` (provision.js lines
104–119): walk the users in order; when `internal_metadata[name]` is
undefined, generate a password (the `apg` subprocess is modelled by the
function `gen`) and store it; otherwise leave the existing value.  Later
users observe earlier insertions, as in the source (the object is mutated
in place). -/
def genEntries (gen : String → String) :
    List String → List (String × String) → List (String × String)
  | [], es => es
  | u :: us, es =>
    match es.lookup (pwKey u) with
    | some _ => genEntries gen us es
    | none => genEntries gen us (es ++ [(pwKey u, gen u)])

/-- Source `generatePasswords` (provision.js lines 75–127): skip when
`image.generate_passwords === false`; return unchanged when `image.users`
is not an array (modelled: absent); otherwise initialize
`internal_metadata` to `{}` when undefined and fill in the missing
`<name>_pw` entries. -/
def generatePasswords (gen : String → String) (image : Image)
    (im : Option InternalMetadata) : Option InternalMetadata :=
  if image.generate_passwords = some false then im
  else
    match image.users with
    | none => im
    | some users =>
      let m := im.getD {}
      some { m with entries := genEntries gen users m.entries }

/-- Lookup of a key in a job's optional `internal_metadata`. -/
def lookupIM (im : Option InternalMetadata) (k : String) : Option String :=
  im.bind fun m => m.entries.lookup k


/-! ## provision.js: preparePayload -/

/-- The brand after the `image.type === 'lx-dataset'` normalization
(provision.js lines 150–152), which rewrites `params.brand` to `'lx'`
before the brand branch of `preparePayload` runs. -/
def effectiveBrand (p : ProvisionParams) : String :=
  if p.image.type = some "lx-dataset" then "lx" else p.brand

/-- The `internal_metadata.set_resolvers === false` test of `preparePayload`
(provision.js lines 180–184). -/
def setResolversFalse (p : ProvisionParams) : Bool :=
  match p.internal_metadata with
  | some m => m.set_resolvers = some false
  | none => false

/-- One step of the resolver collection (provision.js lines 195–200): push
the resolver unless it is already collected
(`resolvers.indexOf(resolver) === -1`). -/
def addResolver (acc : List String) (r : String) : List String :=
  if acc.contains r then acc else acc ++ [r]

/-- Resolver collection over the NICs in network order (provision.js lines
190–201). -/
def collectResolvers (nics : List Nic) : List String :=
  nics.foldl
    (fun acc nic =>
      match nic.resolvers with
      | some rs => rs.foldl addResolver acc
      | none => acc)
    []

/-- One step of the route merge (provision.js lines 205–209): a key already
present wins (`!routes.hasOwnProperty(r)`). -/
def addRoute (acc : List (String × String)) (kv : String × String) :
    List (String × String) :=
  if (acc.lookup kv.fst).isSome then acc else acc ++ [kv]

/-- Route merge over the NICs in network order (provision.js lines
203–210). -/
def collectRoutes (nics : List Nic) : List (String × String) :=
  nics.foldl
    (fun acc nic =>
      match nic.routes with
      | some rts => rts.foldl addRoute acc
      | none => acc)
    []

/-- Follows the spec's words (not the source): all resolvers of all NICs,
flattened in NIC order. -/
def allResolvers (nics : List Nic) : List String :=
  (nics.map fun n => n.resolvers.getD []).flatten

/-- Follows the spec's words (not the source): remove duplicates keeping the
first occurrence of each element. -/
def dedupFirst (l : List String) : List String :=
  l.foldl addResolver []

/-- Follows the spec's words (not the source): the resolver list of the spec,
"collected in NIC order with duplicates removed". -/
def specResolvers (nics : List Nic) : List String :=
  dedupFirst (allResolvers nics)

/-- Follows the spec's words (not the source): the first route value for key
`k` over the NICs in order — "the first-seen key winning". -/
def firstRoute : List Nic → String → Option String
  | [], _ => none
  | nic :: rest, k =>
    match nic.routes with
    | some rts =>
      match rts.lookup k with
      | some v => some v
      | none => firstRoute rest k
    | none => firstRoute rest k

/-- Source `preparePayload` (provision.js lines 134–294), for jobs without
NFS volumes (`job.nfsVolumesInternalMetadata` undefined; the omitted block
only adds volume metadata under `internal_metadata` and no claim concerns
it).  Mirrors the source statement by statement: the `kernel_version`
backfill from image tags, the lx-dataset brand rewrite, the `keys`
copy-loop, `archive_on_delete = true`, the `set_resolvers` check, the
resolver/route collection over the NICs, the bhyve/kvm versus other-brand
branch (`delete payload.quota` versus `image_uuid`/`filesystems`), and the
`imgapiPeers` passthrough.  JS truthiness of `params[field]` for the driver
fields is modelled by `Option` presence (an empty string is not
distinguished). -/
def preparePayload (p : ProvisionParams) : CnapiPayload :=
  let kernelVersion := p.kernel_version <|> p.image.tags_kernel_version
  let brand := effectiveBrand p
  let payload0 : CnapiPayload :=
    { uuid := p.vm_uuid
      image := p.image
      brand := some brand
      quota := p.quota
      kernel_version := kernelVersion
      internal_metadata := p.internal_metadata
      nics := p.nics
      resolvers := p.resolvers
      archive_on_delete := true }
  let wantResolvers := !(setResolversFalse p)
  let resolvers := collectResolvers p.nics
  let routes := collectRoutes p.nics
  let payload1 :=
    if wantResolvers = true ∧ payload0.resolvers = none then
      { payload0 with resolvers := some resolvers }
    else payload0
  let payload2 :=
    if routes ≠ [] then { payload1 with routes := some routes } else payload1
  let payload3 :=
    if brand = "bhyve" ∨ brand = "kvm" then
      { payload2 with
        disks := p.disks
        quota := none
        disk_driver := p.disk_driver <|> p.image.disk_driver
        nic_driver := p.nic_driver <|> p.image.nic_driver
        cpu_type := p.cpu_type <|> p.image.cpu_type
        flexible_disk_size :=
          if brand = "bhyve" then
            p.flexible_disk_size <|> p.image.flexible_disk_size
          else none }
    else
      { payload2 with
        image_uuid := p.image_uuid
        filesystems := p.filesystems }
  match p.imgapiPeers with
  | some peers => { payload3 with imgapiPeers := some peers }
  | none => payload3

/-- Source `ensureImage` (provision.js lines 302–327): the `image_uuid` of
the ensure-image payload is `disks[0].image_uuid` for brand bhyve/kvm
(read off the raw `job.params.brand`; this task runs before
`preparePayload`'s lx rewrite) and `params.image_uuid` otherwise.  The
source indexes `disks[0]` unconditionally; a missing disk is modelled as
`none`. -/
def ensureImageUuid (p : ProvisionParams) : Option String :=
  if p.brand = "bhyve" ∨ p.brand = "kvm" then
    (p.disks.bind List.head?).bind Disk.image_uuid
  else p.image_uuid

/-! ## provision.js: provision task and post-back -/

/-- The slice of a provision/add-nics job's mutable state that the modelled
tasks read or write: the `markAsFailedOnError` flag (`true` models both the
initial `true` and the JS `undefined`, since the source only ever compares
`=== false`), the `postBackState` marker, the VM state as VMAPI stores it,
the NIC records existing in NAPI for this VM (by MAC), and the fields the
`provision` task sets. -/
structure Job where
  markAsFailedOnError : Bool := true
  postBackState : Option String := none
  vmState : String := "provisioning"
  nicsInNapi : List String := []
  autoboot : Option Bool := none
  forceProvisionFailure : Bool := false
  expects : String := ""
  taskId : Option String := none
deriving DecidableEq, Repr

/-- Source `provision` (provision.js lines 335–371): set `job.expects` from
`autoboot`, fail early when
`internal_metadata.force_provision_failure` is set, and otherwise call
`cnapi.createVm` (its outcome is the `cnapiCreateVm` argument).  On CNAPI
acceptance the task records the task id and sets
`job.markAsFailedOnError = false` — the point of no return. -/
def provisionTask (cnapiCreateVm : Except String String) (j : Job) :
    Except String Job :=
  let j :=
    if j.autoboot = some false then { j with expects := "stopped" }
    else { j with expects := "running" }
  if j.forceProvisionFailure then
    .error "force_provision_failure set, failing"
  else
    match cnapiCreateVm with
    | .error e => .error e
    | .ok taskId =>
      .ok { j with taskId := some taskId, markAsFailedOnError := false }

/-- Source `setPostBackFailed` (provision.js lines 378–388): when
`job.markAsFailedOnError === false` the task returns without touching
`postBackState`; otherwise it sets `job.postBackState = 'failed'`. -/
def setPostBackFailed (j : Job) : Job :=
  if j.markAsFailedOnError = false then j
  else { j with postBackState := some "failed" }


/-! ## Workflow task chains -/

/-- The body function of a workflow task, identified by the identifier the
source chains reference.  Bodies from `job-common.js`, `fabric-common.js`,
`nfs-volumes.js` and `vm-migration/*.js` are not under `src/`; they are
distinct opaque identifiers here, except the few whose behaviour a claim
needs, which get modelled semantics in `runErrTask`. -/
inductive TaskBody where
  | validateParams | setJobAction | generatePasswords
  | acquireFabricTicket | provisionNatZones | waitForNatZones
  | ensureImage | waitTask | createVolumes
  | preparePayload | provisionVm | addVolumesReferences
  | putVm | updateFwapi
  | releaseVMTicket | releaseAllocationTicket
  | releaseFabricNatTickets | releaseFabricTicket
  | releaseVMTicketIgnoringErr
  | cleanupNics | setPostBackFailed | postBack | refreshVm | onErrorCb
  | validateForZoneAction | setupRequest | updateNetworkParams
  | acquireVMTicket | waitOnVMTicket | zoneAction | checkUpdated
  | migrateValidate | setupForWaitTask
  | getSourceFilesystemDetails | storeSourceFilesystemDetails
  | createProvisionPayload
  | acquireAllocationTicket | waitOnAllocationTicket | allocateServer
  | storeInitialRecord | disallowRetry | setCreateTimestamp
  | getTargetFilesystemDetails | storeTargetFilesystemDetails
  | removeTargetZfsQuota | removeSourceZfsQuota
  | storeSuccess | startSyncWhenAutomatic
  | cleanupSource | cleanupTarget
  | setupCnapiSource | setupCnapiTarget | storeProcessDetails
  | syncData | startSyncOrSwitchWhenAutomatic | storeFailure
  | stopVmTask | waitForWorkflowJob | startFinalSync | ensureVmStopped
  | reserveNetworkIps | storeReservedNetworkIps
  | getSourceCoreFilesystemSize | setupTargetFilesystem
  | setTargetVmAutoboot | setSourceDoNotInventory | updateVmServerUuid
  | removeTargetDoNotInventory | startTargetVm
  | unreserveNetworkIps | startSourceVm
deriving DecidableEq, Repr

/-- A workflow task: its `name` string and its body.  For tasks declared in
modules not under `src/` (the `common.tasks.*`, `migrationCommon.tasks.*`,
`fabricCommon.*` task objects) the name string is not visible in the
source; those names mirror the referencing identifier and only the body is
authoritative. -/
structure Task where
  name : String
  body : TaskBody
deriving DecidableEq, Repr

/-- A composed workflow: main chain plus error and cancel branches. -/
structure Workflow where
  name : String
  chain : List Task
  onerror : List Task
  oncancel : List Task
deriving DecidableEq, Repr

/-- Modelled from the spec: `fabric-common.js` is not under `src/`.  Per
spec §4.3 the fabric-NAT sub-pipeline spliced into provision and add-nics
checks for an existing NAT zone and provisions one if absent, "taking a
fabric-NAT allocation ticket to prevent duplicate provisioning". -/
def fabricProvisionChain : List Task :=
  [ ⟨"fabric.acquire_fabric_nat_ticket", .acquireFabricTicket⟩,
    ⟨"fabric.provision_nat_zones", .provisionNatZones⟩ ]

/-- Modelled from the spec: the fabric sub-pipeline's wait task
(`fabricCommon.provisionWaitTask`), which waits for provisioned NAT zones
before the parent workflow continues. -/
def fabricProvisionWaitTask : Task :=
  ⟨"fabric.wait_for_nat_zones", .waitForNatZones⟩

/-- Modelled from the spec: `fabricCommon.releaseFabricNatTickets` releases
the fabric-NAT waitlist tickets taken by the sub-pipeline (spec §4.4:
tickets are released on every path). -/
def fabricReleaseNatTicketsTask : Task :=
  ⟨"fabric.release_fabric_nat_tickets", .releaseFabricNatTickets⟩

/-- Modelled from the spec: `fabricCommon.releaseTicketTask` (the variant
the add-nics workflow splices in) releases the fabric-NAT waitlist
ticket. -/
def fabricReleaseTicketTask : Task :=
  ⟨"fabric.release_ticket", .releaseFabricTicket⟩

/-- Modelled from the spec: `nfs-volumes.js` is not under `src/`; its
provision sub-chain creates/reserves the required NFS volumes and takes no
waitlist tickets. -/
def nfsProvisionChain : List Task :=
  [ ⟨"volapi.provision_volumes", .createVolumes⟩ ]

/-- Source provision workflow `chain` (provision.js lines 405–528). -/
def provisionChain : List Task :=
  [ ⟨"common.validate_params", .validateParams⟩,
    ⟨"workflow.set_job_action", .setJobAction⟩,
    ⟨"imgapi.generate_passwords", .generatePasswords⟩ ] ++
  fabricProvisionChain ++
  [ ⟨"cnapi.ensure_image", .ensureImage⟩,
    ⟨"cnapi.wait_task_ensure_image", .waitTask⟩,
    fabricProvisionWaitTask ] ++
  nfsProvisionChain ++
  [ ⟨"prepare_payload", .preparePayload⟩,
    ⟨"cnapi.provision_vm", .provisionVm⟩,
    ⟨"cnapi.wait_task", .waitTask⟩,
    ⟨"volapi.add_volumes_references", .addVolumesReferences⟩,
    ⟨"vmapi.put_vm", .putVm⟩,
    ⟨"fwapi.update", .updateFwapi⟩,
    ⟨"cnapi.release_vm_ticket", .releaseVMTicket⟩,
    fabricReleaseNatTicketsTask ]

/-- Source provision workflow `onerror` (provision.js lines 530–581):
`napi.cleanup_nics` first, then the failed post-back, ticket cleanup,
VM refresh, fabric ticket release and the final error callback. -/
def provisionOnError : List Task :=
  [ ⟨"napi.cleanup_nics", .cleanupNics⟩,
    ⟨"set_post_back_failed", .setPostBackFailed⟩,
    ⟨"common.post_back", .postBack⟩,
    ⟨"cnapi.cleanup_allocation_ticket", .releaseAllocationTicket⟩,
    ⟨"cnapi.cleanup_vm_ticket", .releaseVMTicket⟩,
    ⟨"vmapi.refresh_vm_on_error", .refreshVm⟩,
    fabricReleaseNatTicketsTask,
    ⟨"On error", .onErrorCb⟩ ]

/-- Source provision workflow `oncancel` (provision.js lines 582–599). -/
def provisionOnCancel : List Task :=
  [ ⟨"vmapi.refresh_vm", .refreshVm⟩,
    ⟨"cnapi.cleanup_vm_ticket", .releaseVMTicket⟩,
    ⟨"cnapi.cleanup_allocation_ticket", .releaseAllocationTicket⟩,
    fabricReleaseNatTicketsTask ]

/-- Source provision workflow record (provision.js lines 402–600). -/
def provisionWorkflow : Workflow :=
  { name := "provision-8.2.2"
    chain := provisionChain
    onerror := provisionOnError
    oncancel := provisionOnCancel }

/-- Source add-nics workflow `chain` (add-nics.js lines 54–138). -/
def addNicsChain : List Task :=
  [ ⟨"common.validate_params", .validateForZoneAction⟩,
    ⟨"common.setup_request", .setupRequest⟩ ] ++
  fabricProvisionChain ++
  [ ⟨"common.update_network_params", .updateNetworkParams⟩,
    ⟨"cnapi.acquire_vm_ticket", .acquireVMTicket⟩,
    ⟨"cnapi.wait_on_vm_ticket", .waitOnVMTicket⟩,
    fabricProvisionWaitTask,
    ⟨"cnapi.update_vm", .zoneAction⟩,
    ⟨"cnapi.wait_task", .waitTask⟩,
    ⟨"vmapi.check_updated", .checkUpdated⟩,
    ⟨"vmapi.put_vm", .putVm⟩,
    ⟨"fwapi.update", .updateFwapi⟩,
    ⟨"cnapi.release_vm_ticket", .releaseVMTicket⟩,
    fabricReleaseTicketTask ]

/-- Source add-nics workflow `onerror` (add-nics.js lines 140–158):
`napi.cleanup_nics` first, then VM-ticket and fabric-ticket release and the
final error callback. -/
def addNicsOnError : List Task :=
  [ ⟨"napi.cleanup_nics", .cleanupNics⟩,
    ⟨"on_error.release_vm_ticket", .releaseVMTicket⟩,
    fabricReleaseTicketTask,
    ⟨"On error", .onErrorCb⟩ ]

/-- Source add-nics workflow `oncancel` (add-nics.js lines 159–166): only
the two ticket releases — no `napi.cleanup_nics`. -/
def addNicsOnCancel : List Task :=
  [ ⟨"on_cancel.release_vm_ticket", .releaseVMTicket⟩,
    fabricReleaseTicketTask ]

/-- Source add-nics workflow record (add-nics.js lines 51–167). -/
def addNicsWorkflow : Workflow :=
  { name := "add-nics-7.3.0"
    chain := addNicsChain
    onerror := addNicsOnError
    oncancel := addNicsOnCancel }

/-- Source migrate-begin workflow (concatenated into `lib/errors.js`,
lines 550–619 of that file). -/
def migrateBeginWorkflow : Workflow :=
  { name := "migrate-begin-1.0.0"
    chain :=
      [ ⟨"common.tasks.validateForZoneAction", .validateForZoneAction⟩,
        ⟨"migrationCommon.tasks.validate", .migrateValidate⟩,
        ⟨"common.tasks.setupForWaitTask", .setupForWaitTask⟩,
        ⟨"migrationBegin.tasks.getSourceFilesystemDetails",
          .getSourceFilesystemDetails⟩,
        ⟨"common.tasks.waitTask", .waitTask⟩,
        ⟨"migrationBegin.tasks.storeSourceFilesystemDetails",
          .storeSourceFilesystemDetails⟩,
        ⟨"migrationBegin.tasks.createProvisionPayload",
          .createProvisionPayload⟩,
        ⟨"common.tasks.acquireAllocationTicket", .acquireAllocationTicket⟩,
        ⟨"common.tasks.waitOnAllocationTicket", .waitOnAllocationTicket⟩,
        ⟨"migrationBegin.tasks.allocateServer", .allocateServer⟩,
        ⟨"common.tasks.releaseAllocationTicket", .releaseAllocationTicket⟩,
        ⟨"common.tasks.acquireVMTicket", .acquireVMTicket⟩,
        ⟨"common.tasks.waitOnVMTicket", .waitOnVMTicket⟩,
        ⟨"migrationCommon.tasks.storeInitialRecord", .storeInitialRecord⟩,
        ⟨"migrationCommon.tasks.disallowRetry", .disallowRetry⟩,
        ⟨"common.tasks.releaseVMTicket", .releaseVMTicket⟩,
        ⟨"migrationBegin.tasks.provisionVm", .provisionVm⟩,
        ⟨"common.tasks.setupForWaitTask", .setupForWaitTask⟩,
        ⟨"migrationBegin.tasks.setCreateTimestamp", .setCreateTimestamp⟩,
        ⟨"common.tasks.waitTask", .waitTask⟩,
        ⟨"common.tasks.setupForWaitTask", .setupForWaitTask⟩,
        ⟨"migrationBegin.tasks.getTargetFilesystemDetails",
          .getTargetFilesystemDetails⟩,
        ⟨"common.tasks.waitTask", .waitTask⟩,
        ⟨"migrationBegin.tasks.storeTargetFilesystemDetails",
          .storeTargetFilesystemDetails⟩,
        ⟨"common.tasks.setupForWaitTask", .setupForWaitTask⟩,
        ⟨"migrationCommon.tasks.removeTargetZfsQuota", .removeTargetZfsQuota⟩,
        ⟨"common.tasks.waitTask", .waitTask⟩,
        ⟨"common.tasks.setupForWaitTask", .setupForWaitTask⟩,
        ⟨"migrationCommon.tasks.removeSourceZfsQuota", .removeSourceZfsQuota⟩,
        ⟨"common.tasks.waitTask", .waitTask⟩,
        ⟨"migrationCommon.tasks.storeSuccess", .storeSuccess⟩,
        ⟨"migrationBegin.tasks.startSyncWhenAutomatic",
          .startSyncWhenAutomatic⟩ ]
    onerror :=
      [ ⟨"migrationCommon.tasks.storeFailure", .storeFailure⟩,
        ⟨"common.tasks.releaseAllocationTicket", .releaseAllocationTicket⟩,
        ⟨"common.tasks.releaseVMTicketIgnoringErr",
          .releaseVMTicketIgnoringErr⟩ ]
    oncancel :=
      [ ⟨"migrationCommon.tasks.storeFailure", .storeFailure⟩,
        ⟨"common.tasks.releaseAllocationTicket", .releaseAllocationTicket⟩,
        ⟨"common.tasks.releaseVMTicketIgnoringErr",
          .releaseVMTicketIgnoringErr⟩ ] }

/-- Source migrate-sync workflow (concatenated into
`lib/workflows/add-nics.js`, lines 190–245 of that file). -/
def migrateSyncWorkflow : Workflow :=
  { name := "migrate-sync-1.0.0"
    chain :=
      [ ⟨"common.tasks.validateForZoneAction", .validateForZoneAction⟩,
        ⟨"migrationCommon.tasks.validate", .migrateValidate⟩,
        ⟨"common.tasks.acquireVMTicket", .acquireVMTicket⟩,
        ⟨"common.tasks.waitOnVMTicket", .waitOnVMTicket⟩,
        ⟨"cleanupSource", .cleanupSource⟩,
        ⟨"cleanupTarget", .cleanupTarget⟩,
        ⟨"migrationCommon.tasks.storeInitialRecord", .storeInitialRecord⟩,
        ⟨"common.tasks.releaseVMTicket", .releaseVMTicket⟩,
        ⟨"common.tasks.setupForWaitTask", .setupForWaitTask⟩,
        ⟨"migrationCommon.tasks.setupCnapiSource", .setupCnapiSource⟩,
        ⟨"common.tasks.waitTask", .waitTask⟩,
        ⟨"common.tasks.setupForWaitTask", .setupForWaitTask⟩,
        ⟨"migrationCommon.tasks.setupCnapiTarget", .setupCnapiTarget⟩,
        ⟨"common.tasks.waitTask", .waitTask⟩,
        ⟨"migrationCommon.tasks.storeProcessDetails", .storeProcessDetails⟩,
        ⟨"migrationSync.tasks.sync", .syncData⟩,
        ⟨"migrationCommon.tasks.storeSuccess", .storeSuccess⟩,
        ⟨"migrationSync.tasks.startSyncOrSwitchWhenAutomatic",
          .startSyncOrSwitchWhenAutomatic⟩ ]
    onerror :=
      [ ⟨"cleanupSource", .cleanupSource⟩,
        ⟨"cleanupTarget", .cleanupTarget⟩,
        ⟨"migrationCommon.tasks.storeFailure", .storeFailure⟩,
        ⟨"common.tasks.releaseVMTicketIgnoringErr",
          .releaseVMTicketIgnoringErr⟩ ]
    oncancel :=
      [ ⟨"cleanupSource", .cleanupSource⟩,
        ⟨"cleanupTarget", .cleanupTarget⟩,
        ⟨"migrationCommon.tasks.storeFailure", .storeFailure⟩,
        ⟨"common.tasks.releaseVMTicketIgnoringErr",
          .releaseVMTicketIgnoringErr⟩ ] }

/-- Source migrate-switch workflow (concatenated into `lib/errors.js`,
lines 444–529 of that file). -/
def migrateSwitchWorkflow : Workflow :=
  { name := "migrate-switch-1.0.0"
    chain :=
      [ ⟨"common.tasks.validateForZoneAction", .validateForZoneAction⟩,
        ⟨"migrationCommon.tasks.validate", .migrateValidate⟩,
        ⟨"modSwitch.tasks.stopVm", .stopVmTask⟩,
        ⟨"common.tasks.waitForWorkflowJob", .waitForWorkflowJob⟩,
        ⟨"modSwitch.tasks.startFinalSync", .startFinalSync⟩,
        ⟨"common.tasks.waitForWorkflowJob", .waitForWorkflowJob⟩,
        ⟨"common.tasks.acquireVMTicket", .acquireVMTicket⟩,
        ⟨"common.tasks.waitOnVMTicket", .waitOnVMTicket⟩,
        ⟨"modSwitch.tasks.ensureVmStopped", .ensureVmStopped⟩,
        ⟨"modSwitch.tasks.reserveNetworkIps", .reserveNetworkIps⟩,
        ⟨"modSwitch.tasks.storeReservedNetworkIps", .storeReservedNetworkIps⟩,
        ⟨"migrationCommon.tasks.storeInitialRecord", .storeInitialRecord⟩,
        ⟨"modSwitch.tasks.getSourceCoreFilesystemSize",
          .getSourceCoreFilesystemSize⟩,
        ⟨"common.tasks.waitTask", .waitTask⟩,
        ⟨"modSwitch.tasks.setupTargetFilesystem", .setupTargetFilesystem⟩,
        ⟨"common.tasks.waitTask", .waitTask⟩,
        ⟨"modSwitch.tasks.setTargetVmAutoboot", .setTargetVmAutoboot⟩,
        ⟨"common.tasks.waitTask", .waitTask⟩,
        ⟨"modSwitch.tasks.setSourceDoNotInventory", .setSourceDoNotInventory⟩,
        ⟨"common.tasks.waitTask", .waitTask⟩,
        ⟨"modSwitch.tasks.updateVmServerUuid", .updateVmServerUuid⟩,
        ⟨"modSwitch.tasks.removeTargetDoNotInventory",
          .removeTargetDoNotInventory⟩,
        ⟨"common.tasks.waitTask", .waitTask⟩,
        ⟨"migrationCommon.tasks.storeSuccess", .storeSuccess⟩,
        ⟨"common.tasks.releaseVMTicket", .releaseVMTicket⟩,
        ⟨"modSwitch.tasks.startTargetVm", .startTargetVm⟩,
        ⟨"common.tasks.waitForWorkflowJob", .waitForWorkflowJob⟩ ]
    onerror :=
      [ ⟨"migrationCommon.tasks.storeFailure", .storeFailure⟩,
        ⟨"modSwitch.tasks.unreserveNetworkIps", .unreserveNetworkIps⟩,
        ⟨"modSwitch.tasks.startSourceVm", .startSourceVm⟩,
        ⟨"on_error.release_vm_ticket", .releaseVMTicketIgnoringErr⟩ ]
    oncancel :=
      [ ⟨"migrationCommon.tasks.storeFailure", .storeFailure⟩,
        ⟨"modSwitch.tasks.unreserveNetworkIps", .unreserveNetworkIps⟩,
        ⟨"modSwitch.tasks.startSourceVm", .startSourceVm⟩,
        ⟨"on_cancel.release_vm_ticket", .releaseVMTicketIgnoringErr⟩ ] }

/-- The five composed pipelines of claim C2. -/
def composedWorkflows : List Workflow :=
  [ provisionWorkflow, addNicsWorkflow, migrateBeginWorkflow,
    migrateSyncWorkflow, migrateSwitchWorkflow ]


/-! ## Waitlist ticket accounting -/

/-- The ticket scopes of spec §4.4: per-VM, per-server allocation, and the
fabric-NAT allocation ticket of the fabric sub-pipeline. -/
inductive TicketKind where
  | vm | allocation | fabricNat
deriving DecidableEq, Repr

/-- The ticket a task body acquires, when it acquires one. -/
def acquireKind : TaskBody → Option TicketKind
  | .acquireVMTicket => some .vm
  | .acquireAllocationTicket => some .allocation
  | .acquireFabricTicket => some .fabricNat
  | _ => none

/-- The ticket a task body releases, when it releases one. -/
def releaseKind : TaskBody → Option TicketKind
  | .releaseVMTicket => some .vm
  | .releaseVMTicketIgnoringErr => some .vm
  | .releaseAllocationTicket => some .allocation
  | .releaseFabricNatTickets => some .fabricNat
  | .releaseFabricTicket => some .fabricNat
  | _ => none

/-- Ticket kinds acquired somewhere in a task list. -/
def acquiredKinds (ts : List Task) : List TicketKind :=
  ts.filterMap fun t => acquireKind t.body

/-- Ticket kinds released somewhere in a task list. -/
def releasedKinds (ts : List Task) : List TicketKind :=
  ts.filterMap fun t => releaseKind t.body

/-- A branch releases every ticket the claim requires: the per-VM ticket
always, plus every kind some task of the workflow's own chain acquired. -/
def branchReleasesTickets (w : Workflow) (branch : List Task) : Bool :=
  (releasedKinds branch).contains TicketKind.vm &&
    (acquiredKinds w.chain).all fun k => (releasedKinds branch).contains k


/-! ## Semantics of the error/cancel branches on the modelled job state -/

/-- Semantics of one branch task on the modelled `Job` state.
`setPostBackFailed` is the source function above.  `cleanupNics` and
`postBack` live in `job-common.js`, not under `src/`; they are
Modelled from the spec: per spec §4.6 the reconciler on a failed job
"if `markAsFailedOnError` is true, cleans up any NICs pre-created in NAPI
for this provision … If false …, leaves NICs", and `common.post_back`
posts the job's recorded post-back state back to VMAPI, which stores it as
the VM's `state` (when no post-back state was recorded the VM state is left
as it was).  Every other branch task (ticket releases, refreshes, stores)
does not touch NAPI NICs, the post-back marker or the stored VM state, and
is the identity on this state slice. -/
def runErrTask : TaskBody → Job → Job
  | .cleanupNics, j =>
    if j.markAsFailedOnError = false then j else { j with nicsInNapi := [] }
  | .setPostBackFailed, j => setPostBackFailed j
  | .postBack, j =>
    match j.postBackState with
    | some s => { j with vmState := s }
    | none => j
  | _, j => j

/-- Run a branch's tasks in order on the modelled job state. -/
def runChain (ts : List Task) (j : Job) : Job :=
  ts.foldl (fun j t => runErrTask t.body j) j

/-- First-some choice on options, used to state lookup lemmas. -/
def orO {α : Type} (a b : Option α) : Option α :=
  match a with
  | some x => some x
  | none => b


/-- Concrete job state right after CNAPI accepted the provision, used to
witness the point-of-no-return theorem. -/
def jobAfterProvisionEx : Job :=
  { expects := "running", taskId := some "task-1",
    markAsFailedOnError := false }

/-- Concrete bhyve provision parameters, used to witness the brand-branch
theorem. -/
def pBhyveEx : ProvisionParams :=
  { vm_uuid := "vm-1", brand := "bhyve", quota := some 20,
    disks := some [{ image_uuid := some "disk-image-1" }, {}] }

/-- Concrete provision parameters with overlapping NIC resolvers and
routes, used to witness the resolver/route theorem. -/
def pResolverEx : ProvisionParams :=
  { vm_uuid := "vm-2", brand := "joyent-minimal",
    image_uuid := some "img-2", quota := some 10,
    nics :=
      [ { resolvers := some ["8.8.8.8", "8.8.4.4"],
          routes := some [("10.0.0.0/8", "8.8.8.8")] },
        { resolvers := some ["8.8.8.8", "1.1.1.1"],
          routes := some [("10.0.0.0/8", "9.9.9.9"),
                          ("172.16.0.0/12", "10.0.0.1")] } ] }


/-! ## Theorems -/

/-- C1. The claim says every accepted asynchronous mutation (POST /vms,
POST /vms/:uuid with an action, DELETE /vms/:uuid) responds 202 with
`{vm_uuid, job_uuid}`.  The source handlers respond 201 (`createVm`) and
200 (`streamResponse`, used by the update and delete routes) — with the
claimed `{vm_uuid, job_uuid}` body — contradicting the repository's own
test suite, which asserts 202 for these requests.  Evaluated at an
accepted creation and at an accepted non-sync mutation. -/
theorem vm_mutation_accepted_responds_201_and_200 :
    createVm (.ok ()) (.ok ("a-vm-uuid", "a-job-uuid")) =
      .ok { status := 201, vm_uuid := some "a-vm-uuid",
            job_uuid := some "a-job-uuid" } ∧
    streamResponse none "a-vm-uuid" "a-job-uuid" =
      { status := 200, vm_uuid := some "a-vm-uuid",
        job_uuid := some "a-job-uuid" } ∧
    mountRoutes.contains ("post", "/vms", ["createVm"]) = true ∧
    mountRoutes.contains
      ("del", "/vms/:uuid",
        ["deleteVm", "streamResponse", "markAsDestroyed"]) = true ∧
    mountRoutes.contains
      ("post", "/vms/:uuid", ["updateVm", "streamResponse"]) = true ∧
    (201 ≠ 202 ∧ 200 ≠ 202) := by
  refine ⟨rfl, rfl, ?_, ?_, ?_, by decide⟩ <;> decide

/-- C5. The claim says the valid actions of POST /vms/:uuid are
start, stop, reboot, update, add_nics, remove_nics, create_snapshot,
rollback_snapshot, delete_snapshot, reprovision and migrate.  The source's
`VALID_VM_ACTIONS` holds only the first four: those dispatch to their
handlers, a missing action is a 409 `MissingParameterError`, and every
other listed action is rejected 409 `InvalidArgumentError` — contradicting
the repository's own test suite, which drives `add_nics`, `remove_nics`,
the snapshot actions and `reprovision` through this endpoint expecting
202. -/
theorem updateVm_dispatch_table :
    updateVm (some "start") = .dispatched "startVm" ∧
    updateVm (some "stop") = .dispatched "stopVm" ∧
    updateVm (some "reboot") = .dispatched "rebootVm" ∧
    updateVm (some "update") = .dispatched "changeVm" ∧
    updateVm none = .missingParameterErr 409 ∧
    updateVm (some "add_nics") = .invalidArgumentErr 409 ∧
    updateVm (some "remove_nics") = .invalidArgumentErr 409 ∧
    updateVm (some "create_snapshot") = .invalidArgumentErr 409 ∧
    updateVm (some "rollback_snapshot") = .invalidArgumentErr 409 ∧
    updateVm (some "delete_snapshot") = .invalidArgumentErr 409 ∧
    updateVm (some "reprovision") = .invalidArgumentErr 409 ∧
    updateVm (some "migrate") = .invalidArgumentErr 409 := by
  decide

/-- C2. Every composed pipeline (provision, add-nics, migrate-begin,
migrate-sync, migrate-switch) releases in its `onerror` branch and in its
`oncancel` branch the per-VM ticket, together with every ticket kind some
task of its own chain acquires (the allocation ticket for migrate-begin,
the fabric-NAT ticket for provision and add-nics). -/
theorem composed_pipelines_release_tickets_on_error_and_cancel :
    composedWorkflows.all
      (fun w => branchReleasesTickets w w.onerror &&
        branchReleasesTickets w w.oncancel) = true := by
  decide

/-- C9. The add-nics `oncancel` chain consists only of ticket-release
tasks, contains no `napi.cleanup_nics` task (which leads `onerror`), and
running it leaves the NAPI NIC records of the job untouched. -/
theorem addnics_oncancel_only_releases_tickets :
    (∀ j : Job, runChain addNicsOnCancel j = j) ∧
    addNicsOnCancel.all (fun t => (releaseKind t.body).isSome) = true ∧
    addNicsOnCancel.all (fun t => t.body != TaskBody.cleanupNics) = true ∧
    (addNicsOnError.head?.map Task.body = some TaskBody.cleanupNics) ∧
    addNicsOnCancel.all
      (fun t => (acquireKind t.body).isNone &&
        t.body != TaskBody.zoneAction) = true := by
  exact ⟨fun j => rfl, by decide, by decide, by decide, by decide⟩

/-- C8 counterexample. The claim says every error body has shape
`{code, message}` or `{code, message, errors}`; but
`MorayBucketsNotSetupError` built with a last-initialization error carries
that error under the additional `lastInitError` key of its body. -/
theorem moray_buckets_body_carries_lastInitError :
    specErrorBodyShape
      (MorayBucketsNotSetupError (some "connection refused")).body
      = false ∧
    (MorayBucketsNotSetupError (some "connection refused")).body.lastInitError
      = some "connection refused" := by
  exact ⟨rfl, rfl⟩

/-- C9 witness: the cancel chain applied to a concrete add-nics job with
one pre-created NIC leaves the job state untouched. -/
theorem addnics_oncancel_witness :
    runChain addNicsOnCancel
      { nicsInNapi := ["90:b8:d0:44:55:66"], vmState := "running" }
      = { nicsInNapi := ["90:b8:d0:44:55:66"], vmState := "running" } :=
  addnics_oncancel_only_releases_tickets.1
    { nicsInNapi := ["90:b8:d0:44:55:66"], vmState := "running" }

/-- C8 amended. Each error constructor of the taxonomy carries the claimed
status (409 for ValidationFailed, UnallocatedVM, VmNotRunning,
VmNotStopped, BrandNotSupported, VmWithoutFlexibleDiskSize,
InsufficientDiskSpace; 503 for MorayBucketsNotSetup and DataVersion) and
the claimed code; the bodies have the `{code, message}` or
`{code, message, errors}` shape — with the one exception that
`MorayBucketsNotSetupError` also carries its constructor argument as
`lastInitError` (absent exactly when no last error is given). -/
theorem error_module_statuses_and_bodies (m le fd mn : String)
    (errs : List ErrElem) (reqVer : Nat) (actualVer : Option Nat) :
    (UnallocatedVMError m).statusCode = 409 ∧
    (UnallocatedVMError m).body.code = "UnallocatedVM" ∧
    specErrorBodyShape (UnallocatedVMError m).body = true ∧
    (UnallocatedVMError m).body.errors = none ∧
    VmNotRunningError.statusCode = 409 ∧
    VmNotRunningError.body.code = "VmNotRunning" ∧
    specErrorBodyShape VmNotRunningError.body = true ∧
    VmNotStoppedError.statusCode = 409 ∧
    VmNotStoppedError.body.code = "VmNotStopped" ∧
    specErrorBodyShape VmNotStoppedError.body = true ∧
    VmWithoutFlexibleDiskSizeError.statusCode = 409 ∧
    VmWithoutFlexibleDiskSizeError.body.code = "VmWithoutFlexibleDiskSize" ∧
    specErrorBodyShape VmWithoutFlexibleDiskSizeError.body = true ∧
    InsufficientDiskSpaceError.statusCode = 409 ∧
    InsufficientDiskSpaceError.body.code = "InsufficientDiskSpace" ∧
    specErrorBodyShape InsufficientDiskSpaceError.body = true ∧
    (BrandNotSupportedError m).statusCode = 409 ∧
    (BrandNotSupportedError m).body.code = "BrandNotSupported" ∧
    specErrorBodyShape (BrandNotSupportedError m).body = true ∧
    (ValidationFailedError m errs).statusCode = 409 ∧
    (ValidationFailedError m errs).body.code = "ValidationFailed" ∧
    (ValidationFailedError m errs).body.errors = some errs ∧
    specErrorBodyShape (ValidationFailedError m errs).body = true ∧
    (MorayBucketsNotSetupError none).statusCode = 503 ∧
    (MorayBucketsNotSetupError none).body.code = "MorayBucketsNotSetup" ∧
    specErrorBodyShape (MorayBucketsNotSetupError none).body = true ∧
    (MorayBucketsNotSetupError (some le)).statusCode = 503 ∧
    (MorayBucketsNotSetupError (some le)).body.lastInitError = some le ∧
    (DataVersionError mn reqVer actualVer fd).statusCode = 503 ∧
    (DataVersionError mn reqVer actualVer fd).body.code = "DataVersion" ∧
    specErrorBodyShape (DataVersionError mn reqVer actualVer fd).body
      = true := by
  repeat' apply And.intro
  all_goals rfl

/-- C8 witness: the amended theorem applied at concrete messages. -/
theorem error_module_statuses_witness :
    (UnallocatedVMError "VM has not been allocated").statusCode = 409 ∧
    (MorayBucketsNotSetupError (some "setup failed")).body.lastInitError
      = some "setup failed" :=
  ⟨(error_module_statuses_and_bodies "VM has not been allocated"
      "setup failed" "f" "m" [] 1 none).1,
   (error_module_statuses_and_bodies "VM has not been allocated"
      "setup failed" "f" "m" [] 1 none).2.2.2.2.2.2.2.2.2.2.2.2.2.2.2.2.2.2.2.2.2.2.2.2.2.2.2.1⟩

/-- C3 counterexample. The claim says that with `markAsFailedOnError`
false the NICs are left in place *and the VM is still set to
state="failed"*.  On a concrete failed provision job with
`markAsFailedOnError = false` the error branch leaves the NICs (as
claimed) but also leaves the VM state at "provisioning":
`setPostBackFailed` skips the post-back marker, so no failed state is
posted back. -/
theorem provision_onerror_no_failed_state_cex :
    (runChain provisionOnError
      { markAsFailedOnError := false, vmState := "provisioning",
        nicsInNapi := ["90:b8:d0:aa:bb:cc"] }).vmState = "provisioning" ∧
    (runChain provisionOnError
      { markAsFailedOnError := false, vmState := "provisioning",
        nicsInNapi := ["90:b8:d0:aa:bb:cc"] }).nicsInNapi
      = ["90:b8:d0:aa:bb:cc"] ∧
    "provisioning" ≠ "failed" := by
  exact ⟨rfl, rfl, by decide⟩

/-- C3 amended. For provision and add-nics jobs, `napi.cleanup_nics` is the
first `onerror` task; while `markAsFailedOnError` is true the error branch
leaves no pre-created NIC record in NAPI and the provision branch posts the
VM back as state "failed"; while it is false the NICs are left in place and
the VM is *not* marked failed (`setPostBackFailed` leaves `postBackState`
unset, and the add-nics error branch never posts a state back at all). -/
theorem onerror_nic_cleanup_and_failed_state (j : Job) :
    (provisionOnError.head?.map Task.name = some "napi.cleanup_nics" ∧
     provisionOnError.head?.map Task.body = some TaskBody.cleanupNics ∧
     addNicsOnError.head?.map Task.name = some "napi.cleanup_nics" ∧
     addNicsOnError.head?.map Task.body = some TaskBody.cleanupNics) ∧
    (j.markAsFailedOnError = true →
      (runChain provisionOnError j).nicsInNapi = [] ∧
      (runChain provisionOnError j).vmState = "failed" ∧
      (runChain addNicsOnError j).nicsInNapi = []) ∧
    (j.markAsFailedOnError = false →
      (runChain provisionOnError j).nicsInNapi = j.nicsInNapi ∧
      (runChain addNicsOnError j).nicsInNapi = j.nicsInNapi ∧
      (runChain addNicsOnError j).vmState = j.vmState ∧
      (j.postBackState = none →
        (runChain provisionOnError j).vmState = j.vmState)) := by
  refine ⟨⟨rfl, rfl, rfl, rfl⟩, ?_, ?_⟩
  · intro h
    simp [runChain, runErrTask, setPostBackFailed, h, provisionOnError,
      addNicsOnError, fabricReleaseNatTicketsTask, fabricReleaseTicketTask]
  · intro h
    refine ⟨?_, ?_, ?_, ?_⟩
    · simp [runChain, runErrTask, setPostBackFailed, h, provisionOnError,
        fabricReleaseNatTicketsTask]
      cases j.postBackState <;> simp
    · simp [runChain, runErrTask, h, addNicsOnError, fabricReleaseTicketTask]
    · simp [runChain, runErrTask, h, addNicsOnError, fabricReleaseTicketTask]
    · intro hpb
      simp [runChain, runErrTask, setPostBackFailed, h, hpb, provisionOnError,
        fabricReleaseNatTicketsTask]

/-- C3 witness: the amended theorem applied to a failed provision job with
`markAsFailedOnError = true` and one pre-created NIC. -/
theorem onerror_nic_cleanup_witness :
    (runChain provisionOnError
      { markAsFailedOnError := true,
        nicsInNapi := ["90:b8:d0:11:22:33"] }).nicsInNapi = [] ∧
    (runChain provisionOnError
      { markAsFailedOnError := true,
        nicsInNapi := ["90:b8:d0:11:22:33"] }).vmState = "failed" ∧
    (runChain addNicsOnError
      { markAsFailedOnError := true,
        nicsInNapi := ["90:b8:d0:11:22:33"] }).nicsInNapi = [] :=
  (onerror_nic_cleanup_and_failed_state
    { markAsFailedOnError := true,
      nicsInNapi := ["90:b8:d0:11:22:33"] }).2.1 rfl

/-- C4. Once CNAPI has accepted the `createVm` call (the provision task
returns successfully), the job carries `markAsFailedOnError = false`; the
subsequent error branch then does not mark the VM as failed:
`setPostBackFailed` is the identity and the whole `onerror` chain leaves
the stored VM state unchanged. -/
theorem provision_accepted_point_of_no_return
    (res : Except String String) (j j' : Job)
    (h : provisionTask res j = .ok j') (hpb : j.postBackState = none) :
    j'.markAsFailedOnError = false ∧
    setPostBackFailed j' = j' ∧
    (runChain provisionOnError j').vmState = j'.vmState := by
  have hj' : j'.markAsFailedOnError = false ∧ j'.postBackState = none := by
    unfold provisionTask at h
    by_cases hf : j.forceProvisionFailure <;>
      by_cases hab : j.autoboot = some false <;>
        simp [hf, hab] at h <;>
          cases res with
          | error e => simp at h
          | ok t => simp at h; simp [← h, hpb]
  refine ⟨hj'.1, ?_, ?_⟩
  · simp [setPostBackFailed, hj'.1]
  · simp [runChain, runErrTask, setPostBackFailed, hj'.1, hj'.2,
      provisionOnError, fabricReleaseNatTicketsTask]

/-- C4 witness: the theorem applied to a fresh job whose CNAPI call was
accepted with task id "task-1". -/
theorem provision_accepted_point_of_no_return_witness :
    provisionTask (.ok "task-1") {} = .ok jobAfterProvisionEx ∧
    (jobAfterProvisionEx.markAsFailedOnError = false ∧
     setPostBackFailed jobAfterProvisionEx = jobAfterProvisionEx ∧
     (runChain provisionOnError jobAfterProvisionEx).vmState
       = jobAfterProvisionEx.vmState) :=
  ⟨rfl, provision_accepted_point_of_no_return
    (.ok "task-1") {} jobAfterProvisionEx rfl rfl⟩

/-- C6 counterexample. The claim quantifies over "every provision job with
brand bhyve or kvm", but `preparePayload` first rewrites the brand to "lx"
when `image.type === 'lx-dataset'`: on a job with brand "kvm" and an
lx-dataset image the payload keeps `quota`, gets `image_uuid`, and gets no
`disks` — the opposite of the claimed shape. -/
theorem preparePayload_kvm_lx_dataset_cex :
    (preparePayload
      { vm_uuid := "vm-0", brand := "kvm",
        image := { type := some "lx-dataset" },
        quota := some 10, image_uuid := some "img-0",
        disks := some [{ image_uuid := some "disk-img-0" }] }).quota
      = some 10 ∧
    (preparePayload
      { vm_uuid := "vm-0", brand := "kvm",
        image := { type := some "lx-dataset" },
        quota := some 10, image_uuid := some "img-0",
        disks := some [{ image_uuid := some "disk-img-0" }] }).disks
      = none ∧
    (preparePayload
      { vm_uuid := "vm-0", brand := "kvm",
        image := { type := some "lx-dataset" },
        quota := some 10, image_uuid := some "img-0",
        disks := some [{ image_uuid := some "disk-img-0" }] }).image_uuid
      = some "img-0" := by
  exact ⟨rfl, rfl, rfl⟩

/-- C6 amended. For a provision job whose brand after the lx-dataset
normalization is bhyve or kvm, the CNAPI payload carries the job's `disks`
and no `quota` (and no `image_uuid`/`filesystems`); the ensure-image step —
which runs before the rewrite and reads the raw brand — uses
`disks[0].image_uuid` when the raw brand is bhyve/kvm; for every other
brand the payload carries `image_uuid`, the given `filesystems`, retains
`quota` when given, and carries no `disks`. -/
theorem preparePayload_brand_branch (p : ProvisionParams) :
    ((effectiveBrand p = "bhyve" ∨ effectiveBrand p = "kvm") →
      (preparePayload p).disks = p.disks ∧
      (preparePayload p).quota = none ∧
      (preparePayload p).image_uuid = none ∧
      (preparePayload p).filesystems = none) ∧
    ((p.brand = "bhyve" ∨ p.brand = "kvm") →
      ensureImageUuid p = (p.disks.bind List.head?).bind Disk.image_uuid) ∧
    (¬(effectiveBrand p = "bhyve" ∨ effectiveBrand p = "kvm") →
      (preparePayload p).image_uuid = p.image_uuid ∧
      (preparePayload p).filesystems = p.filesystems ∧
      (preparePayload p).quota = p.quota ∧
      (preparePayload p).disks = none) ∧
    (¬(p.brand = "bhyve" ∨ p.brand = "kvm") →
      ensureImageUuid p = p.image_uuid) := by
  refine ⟨?_, ?_, ?_, ?_⟩
  · intro hb
    simp only [preparePayload]
    cases p.imgapiPeers <;>
      simp only [if_pos hb] <;> split <;> split <;> simp
  · intro hb
    simp [ensureImageUuid, hb]
  · intro hb
    simp only [preparePayload]
    cases p.imgapiPeers <;>
      simp only [if_neg hb] <;> split <;> split <;> simp
  · intro hb
    simp [ensureImageUuid, hb]

/-- C6 witness: the amended theorem applied to a concrete bhyve job. -/
theorem preparePayload_brand_branch_witness :
    (preparePayload pBhyveEx).disks = pBhyveEx.disks ∧
    (preparePayload pBhyveEx).quota = none ∧
    (preparePayload pBhyveEx).image_uuid = none ∧
    (preparePayload pBhyveEx).filesystems = none :=
  (preparePayload_brand_branch pBhyveEx).1 (Or.inl rfl)

/-- Lookup distributes over list append, first list winning. -/
theorem lookup_append {α β : Type} [BEq α] (l l' : List (α × β)) (k : α) :
    (l ++ l').lookup k = orO (l.lookup k) (l'.lookup k) := by
  induction l with
  | nil => rfl
  | cons p l ih =>
    obtain ⟨x, y⟩ := p
    by_cases h : (k == x) = true
    · simp [List.lookup, h, orO]
    · simp [List.lookup, h, ih]

/-- Membership in the resolver fold: an element is collected iff it was
already in the accumulator or occurs in the list. -/
theorem foldl_addResolver_mem (l : List String) (acc : List String)
    (x : String) :
    x ∈ l.foldl addResolver acc ↔ x ∈ acc ∨ x ∈ l := by
  induction l generalizing acc with
  | nil => simp
  | cons r l ih =>
    simp only [List.foldl_cons, ih, List.mem_cons]
    unfold addResolver
    by_cases h : acc.contains r
    · have hr : r ∈ acc := by simpa using h
      simp only [if_pos h]
      constructor
      · rintro (hx | hx)
        · exact Or.inl hx
        · exact Or.inr (Or.inr hx)
      · rintro (hx | hx | hx)
        · exact Or.inl hx
        · exact Or.inl (hx ▸ hr)
        · exact Or.inr hx
    · simp only [if_neg h, List.mem_append, List.mem_singleton]
      tauto

/-- The resolver fold keeps the accumulator duplicate-free. -/
theorem foldl_addResolver_nodup (l : List String) (acc : List String)
    (h : acc.Nodup) : (l.foldl addResolver acc).Nodup := by
  induction l generalizing acc with
  | nil => exact h
  | cons r l ih =>
    simp only [List.foldl_cons]
    apply ih
    unfold addResolver
    by_cases hc : r ∈ acc
    · simpa [hc] using h
    · simp [hc, List.nodup_append, h]

/-- The source's per-NIC resolver fold equals the fold over the flattened
resolver list. -/
theorem collectResolvers_foldl (nics : List Nic) (acc : List String) :
    nics.foldl
      (fun acc nic =>
        match nic.resolvers with
        | some rs => rs.foldl addResolver acc
        | none => acc)
      acc
      = (allResolvers nics).foldl addResolver acc := by
  induction nics generalizing acc with
  | nil => rfl
  | cons n ns ih =>
    simp only [List.foldl_cons, allResolvers, List.map_cons,
      List.flatten_cons, List.foldl_append] at *
    cases hr : n.resolvers with
    | none => simpa [hr] using ih _
    | some rs => simpa [hr] using ih _

/-- Refinement: the source's resolver collection computes exactly the
spec's "NIC order, duplicates removed" list. -/
theorem collectResolvers_eq_specResolvers (nics : List Nic) :
    collectResolvers nics = specResolvers nics := by
  unfold collectResolvers specResolvers dedupFirst
  exact collectResolvers_foldl nics []

/-- Lookup after one route-merge step: existing keys win. -/
theorem lookup_addRoute (acc : List (String × String))
    (kv : String × String) (k : String) :
    (addRoute acc kv).lookup k
      = orO (acc.lookup k)
          (if (k == kv.fst) = true then some kv.snd else none) := by
  unfold addRoute
  by_cases h : (acc.lookup kv.fst).isSome
  · simp only [if_pos h]
    cases hk : acc.lookup k with
    | some v => simp [orO]
    | none =>
      by_cases hkk : (k == kv.fst) = true
      · have hk' : k = kv.fst := eq_of_beq hkk
        rw [hk'] at hk
        rw [hk] at h
        simp at h
      · simp [orO, hkk]
  · simp only [if_neg h]
    rw [lookup_append]
    congr 1
    by_cases hkk : (k == kv.fst) = true <;> simp [List.lookup, hkk]

/-- Lookup after folding one NIC's routes: accumulator keys win, then the
NIC's own (unique-keyed) routes. -/
theorem foldl_addRoute_lookup (rts acc : List (String × String))
    (k : String) :
    (rts.foldl addRoute acc).lookup k
      = orO (acc.lookup k) (rts.lookup k) := by
  induction rts generalizing acc with
  | nil =>
    simp only [List.foldl_nil, List.lookup]
    cases h : acc.lookup k <;> simp [orO, h]
  | cons kv rts ih =>
    obtain ⟨a, b⟩ := kv
    simp only [List.foldl_cons, ih, lookup_addRoute, List.lookup]
    cases acc.lookup k <;> by_cases h : (k == a) = true <;> simp [orO, h]

/-- Refinement: a key of the merged route map resolves to the first route
seen for that key over the NICs in order. -/
theorem collectRoutes_lookup (nics : List Nic) (k : String) :
    (collectRoutes nics).lookup k = firstRoute nics k := by
  have aux : ∀ (ns : List Nic) (acc : List (String × String)),
      ((ns.foldl
        (fun acc nic =>
          match nic.routes with
          | some rts => rts.foldl addRoute acc
          | none => acc)
        acc).lookup k)
      = orO (acc.lookup k) (firstRoute ns k) := by
    intro ns
    induction ns with
    | nil =>
      intro acc
      simp only [List.foldl_nil, firstRoute]
      cases h : acc.lookup k <;> simp [orO, h]
    | cons n ns ih =>
      intro acc
      cases hr : n.routes with
      | none =>
        simp only [List.foldl_cons, hr, firstRoute]
        exact ih acc
      | some rts =>
        simp only [List.foldl_cons, hr, firstRoute, ih, foldl_addRoute_lookup]
        cases acc.lookup k <;> cases hc : rts.lookup k <;> simp [orO, hc]
  unfold collectRoutes
  rw [aux nics []]
  simp [orO, List.lookup]

/-- C7. `preparePayload` always sets `archive_on_delete = true`; when
`internal_metadata.set_resolvers === false` the payload's resolvers are
not populated from the NICs (they stay exactly what the caller passed);
otherwise, when the caller gave no explicit resolvers, the payload's
resolvers are the NICs' resolvers in NIC order with duplicates removed
(a duplicate-free list keeping exactly the flattened resolvers); and the
payload's routes are the NICs' routes merged with the first-seen key
winning (present only when non-empty, as in the source). -/
theorem preparePayload_archive_resolvers_routes (p : ProvisionParams) :
    (preparePayload p).archive_on_delete = true ∧
    (setResolversFalse p = true →
      (preparePayload p).resolvers = p.resolvers) ∧
    (setResolversFalse p = false → p.resolvers = none →
      (preparePayload p).resolvers = some (specResolvers p.nics)) ∧
    ((preparePayload p).routes =
      if collectRoutes p.nics = [] then none
      else some (collectRoutes p.nics)) ∧
    (∀ k, (collectRoutes p.nics).lookup k = firstRoute p.nics k) ∧
    (specResolvers p.nics).Nodup ∧
    (∀ r, r ∈ specResolvers p.nics ↔ r ∈ allResolvers p.nics) := by
  refine ⟨?_, ?_, ?_, ?_, fun k => collectRoutes_lookup p.nics k, ?_, ?_⟩
  · simp only [preparePayload]
    cases p.imgapiPeers <;> (repeat' split) <;> simp_all
  · intro hs
    simp only [preparePayload, hs]
    cases p.imgapiPeers <;> (repeat' split) <;> simp_all
  · intro hs hres
    rw [← collectResolvers_eq_specResolvers]
    simp only [preparePayload, hs, hres]
    cases p.imgapiPeers <;> (repeat' split) <;> simp_all
  · simp only [preparePayload]
    cases p.imgapiPeers <;> (repeat' split) <;> simp_all
  · exact foldl_addResolver_nodup _ _ List.nodup_nil
  · intro r
    unfold specResolvers dedupFirst
    rw [foldl_addResolver_mem]
    simp

/-- C7 witness: the theorem applied to a job with two NICs sharing a
resolver and a route key; the resolvers deduplicate in NIC order and the
first NIC's route wins. -/
theorem preparePayload_archive_resolvers_routes_witness :
    (preparePayload pResolverEx).resolvers
      = some (specResolvers pResolverEx.nics) ∧
    specResolvers pResolverEx.nics = ["8.8.8.8", "8.8.4.4", "1.1.1.1"] ∧
    (collectRoutes pResolverEx.nics).lookup "10.0.0.0/8"
      = some "8.8.8.8" ∧
    (preparePayload pResolverEx).archive_on_delete = true :=
  ⟨(preparePayload_archive_resolvers_routes pResolverEx).2.2.1 rfl rfl,
   rfl, rfl,
   (preparePayload_archive_resolvers_routes pResolverEx).1⟩

/-- Password generation never removes or changes an existing metadata
binding. -/
theorem genEntries_lookup_preserved (gen : String → String)
    (us : List String) (es : List (String × String)) (k v : String)
    (h : es.lookup k = some v) :
    (genEntries gen us es).lookup k = some v := by
  induction us generalizing es with
  | nil => simpa [genEntries] using h
  | cons u us ih =>
    unfold genEntries
    cases hl : es.lookup (pwKey u) with
    | some w => exact ih es h
    | none =>
      apply ih
      rw [lookup_append]
      simp [h, orO]

/-- Definedness of a metadata binding is preserved by password
generation. -/
theorem genEntries_lookup_isSome_preserved (gen : String → String)
    (us : List String) (es : List (String × String)) (k : String)
    (h : (es.lookup k).isSome = true) :
    ((genEntries gen us es).lookup k).isSome = true := by
  obtain ⟨v, hv⟩ := Option.isSome_iff_exists.mp h
  simp [genEntries_lookup_preserved gen us es k v hv]

/-- After password generation every user of the image has a `<name>_pw`
binding. -/
theorem genEntries_user_key_isSome (gen : String → String) (u : String) :
    ∀ (us : List String) (es : List (String × String)), u ∈ us →
      ((genEntries gen us es).lookup (pwKey u)).isSome = true := by
  intro us
  induction us with
  | nil => intro es h; cases h
  | cons u0 us ih =>
    intro es hu
    unfold genEntries
    cases hl : es.lookup (pwKey u0) with
    | some w =>
      rcases List.mem_cons.mp hu with h | h
      · subst h
        exact genEntries_lookup_isSome_preserved gen us es _ (by simp [hl])
      · exact ih es h
    | none =>
      rcases List.mem_cons.mp hu with h | h
      · subst h
        apply genEntries_lookup_isSome_preserved
        rw [lookup_append]
        simp [hl, orO, List.lookup]
      · exact ih _ h

/-- Password generation is a no-op when every user's key is already
bound. -/
theorem genEntries_stable (gen : String → String) :
    ∀ (us : List String) (es : List (String × String)),
      (∀ u ∈ us, (es.lookup (pwKey u)).isSome = true) →
      genEntries gen us es = es := by
  intro us
  induction us with
  | nil => intro es _; rfl
  | cons u0 us ih =>
    intro es h
    have h0 := h u0 (List.mem_cons_self u0 us)
    obtain ⟨v, hv⟩ := Option.isSome_iff_exists.mp h0
    unfold genEntries
    rw [hv]
    exact ih es fun u hu => h u (List.mem_cons_of_mem _ hu)

/-- C10. `generatePasswords` creates `<name>_pw` keys only when absent and
never overwrites an existing value; re-running it (with any fresh password
supply `gen'`) leaves the metadata unchanged; it skips generation exactly
when `image.generate_passwords` is strictly the boolean `false`; and
whenever it is not strictly `false` — including when the flag is absent —
every declared user ends up with a `<name>_pw` binding. -/
theorem generatePasswords_retry_safe (gen gen' : String → String)
    (image : Image) (im : Option InternalMetadata) :
    (∀ k v, lookupIM im k = some v →
      lookupIM (generatePasswords gen image im) k = some v) ∧
    generatePasswords gen' image (generatePasswords gen image im)
      = generatePasswords gen image im ∧
    (image.generate_passwords = some false →
      generatePasswords gen image im = im) ∧
    (image.generate_passwords ≠ some false →
      ∀ us u, image.users = some us → u ∈ us →
        (lookupIM (generatePasswords gen image im) (pwKey u)).isSome
          = true) := by
  by_cases hgp : image.generate_passwords = some false
  · refine ⟨?_, ?_, fun _ => by simp [generatePasswords, hgp],
      fun h => absurd hgp h⟩
    · intro k v hv
      simpa [generatePasswords, hgp] using hv
    · simp [generatePasswords, hgp]
  · cases hus : image.users with
    | none =>
      refine ⟨?_, ?_, fun h => absurd h hgp, ?_⟩
      · intro k v hv
        simpa [generatePasswords, hgp, hus] using hv
      · simp [generatePasswords, hgp, hus]
      · intro _ us u h
        simp at h
    | some us =>
      refine ⟨?_, ?_, fun h => absurd h hgp, ?_⟩
      · intro k v hv
        cases im with
        | none => simp [lookupIM] at hv
        | some m0 =>
          simp only [lookupIM, Option.some_bind] at hv
          simp [generatePasswords, hgp, hus, lookupIM]
          exact genEntries_lookup_preserved gen us m0.entries k v hv
      · have hkeys : ∀ u ∈ us,
            ((genEntries gen us (im.getD {}).entries).lookup
              (pwKey u)).isSome = true :=
          fun u hu => genEntries_user_key_isSome gen u us _ hu
        simp [generatePasswords, hgp, hus]
        rw [genEntries_stable gen' us _ hkeys]
      · intro _ us' u hus' hu
        injection hus' with he
        subst he
        simp only [generatePasswords, hus, if_neg hgp, lookupIM,
          Option.some_bind]
        exact genEntries_user_key_isSome gen u us _ hu

/-- C10 witness: the theorem applied to an image with two declared users,
an absent `generate_passwords` flag and a pre-existing password for
"admin": the existing value survives, "root" gets a generated password,
and a re-run changes nothing. -/
theorem generatePasswords_retry_safe_witness :
    lookupIM
      (generatePasswords (fun u => u ++ "-generated")
        { users := some ["admin", "root"] }
        (some { entries := [("admin_pw", "kept-secret")] }))
      "admin_pw" = some "kept-secret" ∧
    (lookupIM
      (generatePasswords (fun u => u ++ "-generated")
        { users := some ["admin", "root"] }
        (some { entries := [("admin_pw", "kept-secret")] }))
      (pwKey "root")).isSome = true ∧
    generatePasswords (fun u => u ++ "-later")
        { users := some ["admin", "root"] }
        (generatePasswords (fun u => u ++ "-generated")
          { users := some ["admin", "root"] }
          (some { entries := [("admin_pw", "kept-secret")] }))
      = generatePasswords (fun u => u ++ "-generated")
          { users := some ["admin", "root"] }
          (some { entries := [("admin_pw", "kept-secret")] }) :=
  ⟨(generatePasswords_retry_safe (fun u => u ++ "-generated")
      (fun u => u ++ "-later") { users := some ["admin", "root"] }
      (some { entries := [("admin_pw", "kept-secret")] })).1
      "admin_pw" "kept-secret" rfl,
   (generatePasswords_retry_safe (fun u => u ++ "-generated")
      (fun u => u ++ "-later") { users := some ["admin", "root"] }
      (some { entries := [("admin_pw", "kept-secret")] })).2.2.2
      (by simp) ["admin", "root"] "root" rfl (by simp),
   (generatePasswords_retry_safe (fun u => u ++ "-generated")
      (fun u => u ++ "-later") { users := some ["admin", "root"] }
      (some { entries := [("admin_pw", "kept-secret")] })).2.1⟩

end SdcVmapi
